import Mathlib

/-
Verification development for the port-scanner backend (src/backend.py).

The Python source is shallowly embedded: every network interaction is
represented by an oracle argument (the environment decides the outcome of
each HTTP probe or TCP connect), and the mutable dictionaries of the
source become Lean structures threaded through folds that mirror the
source loops line by line.  Times are modelled in milliseconds as
rationals (the source stores seconds as floats and reports milliseconds
rounded to two decimals; no claim depends on the rounding).
-/

namespace PortScanner

/-! ## Proxy quality prober (backend.py, test_proxy_quality) -/

/-- The three reference sites of test_sites, backend.py lines 209-213. -/
inductive Site where
  | ipCheck
  | google
  | youtube
deriving DecidableEq, Repr

/-- The value of the name field of each entry of test_sites. -/
def Site.siteName : Site → String
  | .ipCheck => "IP Check"
  | .google => "Google"
  | .youtube => "YouTube"

/-- The value of the priority field of each entry of test_sites. -/
def Site.priority : Site → Nat
  | .ipCheck => 1
  | .google => 2
  | .youtube => 3

/-- The key field of each entry of test_sites. -/
def Site.key : Site → String
  | .ipCheck => "ip_check"
  | .google => "can_access_google"
  | .youtube => "can_access_youtube"

/-- test_sites sorted by ascending priority, as computed by
sorted(test_sites, key=priority) on each iteration of the config loop
(the literal list is already in ascending priority order). -/
def sortedTestSites : List Site := [Site.ipCheck, Site.google, Site.youtube]

/-- The two proxy configurations of proxy_configs, backend.py lines 191-206,
in source order: plain HTTP first, then SOCKS5. -/
inductive ProxyProtocol where
  | http
  | socks5
deriving DecidableEq, Repr

/-- The type field of each proxy configuration. -/
def ProxyProtocol.typeName : ProxyProtocol → String
  | .http => "http"
  | .socks5 => "socks5"

/-- Structured geolocation data as extracted from the JSON body of a 200
response of the ip-check site (geo_data.get of each field may be absent). -/
structure GeoData where
  geoIp : Option String
  country : Option String
  countryCode : Option String
  city : Option String
  region : Option String
deriving DecidableEq, Repr

/-- Outcome of one requests.get through the candidate proxy: either a
response (status code, elapsed time in milliseconds, and the parsed JSON
geolocation payload when parseable) or a raised requests exception,
represented by the error string the handler at backend.py lines 276-285
assigns to the error field. -/
inductive ProbeOutcome where
  | response (status : Nat) (elapsedMs : ℚ) (geo : Option GeoData)
  | exc (errMsg : String)
deriving DecidableEq, Repr

/-- Per-model availability resulting from test_ai_model_availability
(backend.py lines 67-165).  The internal decision heuristics of that
function involve only external HTTP traffic, so its result is supplied by
the environment; only the availability booleans feed back into scoring. -/
structure AIReport where
  chatgpt : Bool
  claude : Bool
  gemini : Bool
  copilot : Bool
deriving DecidableEq, Repr

/-- Number of models whose available flag is true, as counted at
backend.py line 331. -/
def AIReport.availableCount (r : AIReport) : Nat :=
  (if r.chatgpt then 1 else 0) + (if r.claude then 1 else 0) +
    (if r.gemini then 1 else 0) + (if r.copilot then 1 else 0)

/-- The proxy_info dictionary of test_proxy_quality (backend.py lines
173-188) plus the best_time tracking variable, which the source keeps in
lockstep with response_time (response_time is best_time in milliseconds). -/
structure ProxyInfo where
  response_time : Option ℚ
  is_working : Bool
  http_code : Option Nat
  can_access_google : Bool
  accessible_sites : List String
  quality_score : Nat
  quality_level : String
  errField : Option String
  proxy_type : String
  exit_ip : Option String
  exit_country : Option String
  exit_country_code : Option String
  exit_city : Option String
  exit_region : Option String
  ai_models : Option AIReport
deriving DecidableEq, Repr

/-- The initial value of proxy_info, backend.py lines 173-188. -/
def initProxyInfo : ProxyInfo :=
  { response_time := none
    is_working := false
    http_code := none
    can_access_google := false
    accessible_sites := []
    quality_score := 0
    quality_level := "unknown"
    errField := none
    proxy_type := "unknown"
    exit_ip := none
    exit_country := none
    exit_country_code := none
    exit_city := none
    exit_region := none
    ai_models := none }

/-- Status codes counted as a successful proxy exercise,
backend.py line 240. -/
def validStatus (s : Nat) : Bool :=
  s = 200 || s = 204 || s = 301 || s = 302 || s = 403

/-- Whether a probe outcome enters the success branch of the site loop. -/
def ProbeOutcome.isOk : ProbeOutcome → Bool
  | .response s _ _ => validStatus s
  | .exc _ => false

/-- The geolocation extraction of backend.py lines 250-261: only a 200
from the ip-check site is parsed, and a parse failure (geo = none) leaves
the exit fields untouched. -/
def recordGeo (site : Site) (status : Nat) (geo : Option GeoData)
    (info : ProxyInfo) : ProxyInfo :=
  if site = Site.ipCheck ∧ status = 200 then
    match geo with
    | some g =>
      { info with exit_ip := g.geoIp, exit_country := g.country,
                  exit_country_code := g.countryCode,
                  exit_city := g.city, exit_region := g.region }
    | none => info
  else info

/-- The accessible-site recording of backend.py lines 263-265: the name
is appended unless already present or equal to IP Check. -/
def recordAccessible (site : Site) (info : ProxyInfo) : ProxyInfo :=
  if site.siteName ∉ info.accessible_sites ∧ site.siteName ≠ "IP Check" then
    { info with accessible_sites := info.accessible_sites ++ [site.siteName] }
  else info

/-- The per-site flag of backend.py lines 267-269: only the key
can_access_google exists in proxy_info, so only a Google success sets a
flag. -/
def recordSiteFlag (site : Site) (info : ProxyInfo) : ProxyInfo :=
  if site = Site.google then { info with can_access_google := true }
  else info

/-- The best-time tracking of backend.py lines 271-274: keep the lowest
elapsed time seen so far. -/
def recordBest (elapsedMs : ℚ) (info : ProxyInfo) : ProxyInfo :=
  match info.response_time with
  | none => { info with response_time := some elapsedMs }
  | some best =>
    if elapsedMs < best then { info with response_time := some elapsedMs }
    else info

/-- One iteration of the inner site loop of test_proxy_quality
(backend.py lines 224-285) under configuration cfg, probing site through
oracle, updating the proxy_info state: every success (status in the valid
set) marks the proxy working, overwrites http_code and proxy_type and
applies the four success stages; every exception overwrites the error
field and continues the loop. -/
def processSite (cfg : ProxyProtocol) (site : Site)
    (oracle : ProxyProtocol → Site → ProbeOutcome) (info : ProxyInfo) :
    ProxyInfo :=
  match oracle cfg site with
  | .exc msg => { info with errField := some msg }
  | .response status elapsedMs geo =>
    if validStatus status then
      recordBest elapsedMs (recordSiteFlag site (recordAccessible site
        (recordGeo site status geo
          { info with is_working := true, http_code := some status,
                      proxy_type := cfg.typeName })))
    else info

/-- The inner site loop of test_proxy_quality for one configuration:
probes the sites in ascending priority order. -/
def runConfig (cfg : ProxyProtocol)
    (oracle : ProxyProtocol → Site → ProbeOutcome) (info : ProxyInfo) :
    ProxyInfo :=
  sortedTestSites.foldl (fun i s => processSite cfg s oracle i) info

/-- The outer configuration loop of test_proxy_quality (backend.py lines
220-289), also returning the list of (configuration, site) probe attempts
actually made, in order.  After finishing the sites of one configuration,
the loop stops as soon as is_working is set (backend.py lines 288-289). -/
def runConfigs (cfgs : List ProxyProtocol)
    (oracle : ProxyProtocol → Site → ProbeOutcome) (info : ProxyInfo) :
    ProxyInfo × List (ProxyProtocol × Site) :=
  match cfgs with
  | [] => (info, [])
  | cfg :: rest =>
    let info1 := runConfig cfg oracle info
    let trace1 := sortedTestSites.map (fun s => (cfg, s))
    if info1.is_working then (info1, trace1)
    else
      let next := runConfigs rest oracle info1
      (next.1, trace1 ++ next.2)

/-- Accessible-site bonus, backend.py lines 306-312. -/
def siteBonus (accessibleCount : Nat) : Nat :=
  if 3 ≤ accessibleCount then 30
  else if 2 ≤ accessibleCount then 25
  else if 1 ≤ accessibleCount then 20
  else 0

/-- Latency bonus, backend.py lines 315-327 (skipped when response_time
is None). -/
def latencyBonus : Option ℚ → Nat
  | none => 0
  | some t =>
    if t < 300 then 30
    else if t < 600 then 25
    else if t < 1000 then 20
    else if t < 2000 then 15
    else if t < 3000 then 10
    else if t < 5000 then 5
    else 0

/-- AI-model availability bonus, backend.py lines 330-339 (skipped when
ai_models is None; the dictionary is never empty when present). -/
def aiBonus : Option AIReport → Nat
  | none => 0
  | some rep =>
    if 4 ≤ rep.availableCount then 10
    else if 3 ≤ rep.availableCount then 8
    else if 2 ≤ rep.availableCount then 6
    else if 1 ≤ rep.availableCount then 4
    else 0

/-- Quality level from the score, backend.py lines 344-353. -/
def qualityLevelOf (score : Nat) : String :=
  if 85 ≤ score then "excellent"
  else if 70 ≤ score then "good"
  else if 55 ≤ score then "fair"
  else if 40 ≤ score then "poor"
  else "bad"

/-- Score and level computation of test_proxy_quality, backend.py lines
301-355: when working, 30 base points plus the three bonuses; when not
working, the level is unavailable and the score stays 0. -/
def finalizeQuality (info : ProxyInfo) : ProxyInfo :=
  if info.is_working then
    let score := 30 + siteBonus info.accessible_sites.length +
      latencyBonus info.response_time + aiBonus info.ai_models
    { info with quality_score := score, quality_level := qualityLevelOf score }
  else
    { info with quality_level := "unavailable" }

/-- Whole of test_proxy_quality (backend.py lines 168-357): run the
configuration loop over HTTP then SOCKS5, then (when working and
requested) attach the AI-model availability report produced by
test_ai_model_availability through the working proxy, then compute score
and level.  oracle gives each probe outcome and aiOracle the endpoint
availability result; both stand for the external network. -/
def test_proxy_quality (oracle : ProxyProtocol → Site → ProbeOutcome)
    (aiOracle : AIReport) (check_ai_models : Bool) : ProxyInfo :=
  let info := (runConfigs [ProxyProtocol.http, ProxyProtocol.socks5] oracle initProxyInfo).1
  let info :=
    if info.is_working && check_ai_models then
      { info with ai_models := some aiOracle }
    else info
  finalizeQuality info

/-- Probe-attempt trace of test_proxy_quality: the (configuration, site)
pairs attempted, in order. -/
def attemptTrace (oracle : ProxyProtocol → Site → ProbeOutcome) :
    List (ProxyProtocol × Site) :=
  (runConfigs [ProxyProtocol.http, ProxyProtocol.socks5] oracle initProxyInfo).2

/-! ## Port probe (backend.py, scan_port) -/

/-- One result dictionary appended to task.results (backend.py lines
369-396).  The source flattens selected proxy-quality fields into the top
level next to the embedded report; since the flattened quality_score is
the same value as the one inside the report, the embedding keeps only the
embedded report and reads the score through it. -/
structure ProbeResult where
  ip : Nat
  port : Nat
  status : String
  timestamp : Nat
  proxy_quality : Option ProxyInfo
deriving DecidableEq, Repr

/-- The quality_score the sort key x.get reads at backend.py line 441:
the flattened score when present, 0 otherwise. -/
def ProbeResult.score (r : ProbeResult) : Nat :=
  match r.proxy_quality with
  | some q => q.quality_score
  | none => 0

/-- Outcome of the socket interaction inside scan_port: either
connect_ex returned an integer code (0 on success, an errno otherwise:
refusal, unreachability and timeout all surface as nonzero codes), or
some socket call raised an exception. -/
inductive ConnectOutcome where
  | result (code : Int)
  | raised (msg : String)
deriving DecidableEq, Repr

/-- scan_port (backend.py lines 360-399): a single connection attempt; a
result dictionary is produced exactly when connect_ex returned 0, with
the optional proxy-quality report attached when check_quality is set; any
exception and any nonzero code produce None.  now is the discovery
timestamp; conn, oracle and aiOracle stand for the network environment. -/
def scan_port (ip port : Nat) (check_quality : Bool) (now : Nat)
    (conn : ConnectOutcome) (oracle : ProxyProtocol → Site → ProbeOutcome)
    (aiOracle : AIReport) : Option ProbeResult :=
  match conn with
  | .raised _ => none
  | .result code =>
    if code = 0 then
      some { ip := ip, port := port, status := "open", timestamp := now,
             proxy_quality :=
               if check_quality then some (test_proxy_quality oracle aiOracle true)
               else none }
    else none

/-! ## Target enumeration (ipaddress.ip_network with strict=False)

The source delegates CIDR handling to the ipaddress standard library;
the definitions below model its IPv4 dotted-quad address/prefix-length
form: four decimal octets 0-255 without leading zeros, an optional slash
and prefix length 0-32, host bits masked off (strict=False), num_addresses
= 2^(32-plen), and hosts() returning all addresses except the network and
broadcast addresses, except that /31 and /32 networks keep every address. -/

/-- Decimal value of one digit character, none for a non-digit. -/
def digitVal (c : Char) : Option Nat :=
  if '0' ≤ c ∧ c ≤ '9' then some (c.toNat - 48) else none

/-- Parse a nonempty all-digit string without leading zeros. -/
def decimalToNat : List Char → Option Nat
  | [] => none
  | ['0'] => some 0
  | '0' :: _ :: _ => none
  | cs =>
    cs.foldl
      (fun acc c =>
        match acc, digitVal c with
        | some a, some d => some (a * 10 + d)
        | _, _ => none)
      (some 0)

/-- Split a character list on a separator character. -/
def splitOnChar (sep : Char) : List Char → List (List Char)
  | [] => [[]]
  | c :: rest =>
    let r := splitOnChar sep rest
    if c = sep then [] :: r
    else
      match r with
      | [] => [[c]]
      | grp :: grps => (c :: grp) :: grps

/-- Parse one octet: decimal, at most 255. -/
def parseOctet (cs : List Char) : Option Nat :=
  match decimalToNat cs with
  | some n => if n ≤ 255 then some n else none
  | none => none

/-- Parse a dotted-quad IPv4 address into its 32-bit numeric value. -/
def parseIPv4 (cs : List Char) : Option Nat :=
  match splitOnChar '.' cs with
  | [a, b, c, d] =>
    match parseOctet a, parseOctet b, parseOctet c, parseOctet d with
    | some a, some b, some c, some d =>
      some (((a * 256 + b) * 256 + c) * 256 + d)
    | _, _, _, _ => none
  | _ => none

/-- A parsed IPv4 network: network address (host bits zero) and prefix
length. -/
structure IPv4Network where
  base : Nat
  plen : Nat
deriving DecidableEq, Repr

/-- ipaddress.ip_network(spec, strict=False) on the IPv4 forms used by
this program: an address alone means /32; with a prefix length the host
bits are masked off rather than rejected. -/
def parseIPv4Network (s : String) : Option IPv4Network :=
  match splitOnChar '/' s.data with
  | [addr] =>
    match parseIPv4 addr with
    | some a => some { base := a, plen := 32 }
    | none => none
  | [addr, p] =>
    match parseIPv4 addr, decimalToNat p with
    | some a, some pl =>
      if pl ≤ 32 then
        some { base := a - a % 2 ^ (32 - pl), plen := pl }
      else none
    | _, _ => none
  | _ => none

/-- num_addresses of the network: the full address count of the block,
network and broadcast addresses included. -/
def numAddresses (n : IPv4Network) : Nat := 2 ^ (32 - n.plen)

/-- hosts() of the network, as the ordered list of numeric addresses: all
addresses except the first (network) and last (broadcast), except that
/31 and /32 networks yield every address. -/
def hostsList (n : IPv4Network) : List Nat :=
  if 31 ≤ n.plen then (List.range (numAddresses n)).map (fun i => n.base + i)
  else (List.range (numAddresses n - 2)).map (fun i => n.base + 1 + i)

/-! ## Scan loop (backend.py, scan_network_thread lines 417-429) -/

/-- The progress-relevant slice of the task state mutated by the result
collection loop: total, scanned, progress and the accumulated results. -/
structure ScanSnap where
  total : Nat
  scanned : Nat
  progress : Nat
  results : List ProbeResult
deriving DecidableEq, Repr

/-- The state before any future has been collected. -/
def initSnap (total : Nat) : ScanSnap :=
  { total := total, scanned := 0, progress := 0, results := [] }

/-- One iteration of the collection loop (backend.py lines 423-429):
collect the future of host ip, increment scanned, recompute progress as
the integer part of scanned/total*100, and append the result when one was
produced.  probe gives each future's value (scan_port applied to the
host). -/
def stepSnap (total : Nat) (probe : Nat → Option ProbeResult) (ip : Nat)
    (s : ScanSnap) : ScanSnap :=
  { total := s.total
    scanned := s.scanned + 1
    progress := (s.scanned + 1) * 100 / total
    results :=
      match probe ip with
      | some r => s.results ++ [r]
      | none => s.results }

/-- Final state of the collection loop over the given hosts. -/
def runScanLoop (total : Nat) (probe : Nat → Option ProbeResult) :
    List Nat → ScanSnap → ScanSnap
  | [], s => s
  | ip :: rest, s => runScanLoop total probe rest (stepSnap total probe ip s)

/-- All intermediate states of the collection loop, one per collected
future, after the given starting state. -/
def scanTrace (total : Nat) (probe : Nat → Option ProbeResult) :
    List Nat → ScanSnap → List ScanSnap
  | [], _ => []
  | ip :: rest, s =>
    let s1 := stepSnap total probe ip s
    s1 :: scanTrace total probe rest s1

/-- Every state the task passes through during one scan of net, initial
state included, in order. -/
def runScanTrace (net : IPv4Network) (probe : Nat → Option ProbeResult) :
    List ScanSnap :=
  initSnap (numAddresses net) ::
    scanTrace (numAddresses net) probe (hostsList net) (initSnap (numAddresses net))

/-- The state when the loop has exhausted all futures. -/
def finalSnap (net : IPv4Network) (probe : Nat → Option ProbeResult) : ScanSnap :=
  runScanLoop (numAddresses net) probe (hostsList net) (initSnap (numAddresses net))

/-! ## Task model and registry (backend.py, ScanTask and the handlers) -/

/-- The mutable fields of ScanTask (backend.py lines 28-45); the task_id
is the registry key, kept outside the record. -/
structure Task where
  network : String
  port : Int
  threads : Int
  check_proxy_quality : Bool
  is_scanning : Bool
  progress : Nat
  total : Nat
  scanned : Nat
  results : List ProbeResult
  start_time : Option Nat
  end_time : Option Nat
  errField : Option String
  created_at : Nat
deriving DecidableEq, Repr

/-- ScanTask.__init__ (backend.py lines 31-45). -/
def ScanTask.init (network : String) (port threads : Int)
    (check_proxy_quality : Bool) (now : Nat) : Task :=
  { network := network
    port := port
    threads := threads
    check_proxy_quality := check_proxy_quality
    is_scanning := false
    progress := 0
    total := 0
    scanned := 0
    results := []
    start_time := none
    end_time := none
    errField := none
    created_at := now }

/-- Insert r into a list already sorted by descending score, after every
element of score at least that of r (the placement a stable descending
sort gives). -/
def insertByScoreDesc (r : ProbeResult) : List ProbeResult → List ProbeResult
  | [] => [r]
  | b :: bs =>
    if r.score ≤ b.score then b :: insertByScoreDesc r bs
    else r :: b :: bs

/-- task.results.sort(key=quality_score, reverse=True) at backend.py line
441: a stable descending sort by score (list.sort is stable, and
reverse=True preserves the original order of equal keys). -/
def sortByScoreDesc (rs : List ProbeResult) : List ProbeResult :=
  rs.foldl (fun acc r => insertByScoreDesc r acc) []

/-- scan_network_thread (backend.py lines 402-441) as a function from the
created task and the environment to the task state left behind when the
thread exits.  startT and endT are the recorded wall-clock stamps; probe
gives the value scan_port returns for each enumerated host.

Branches mirrored from the source: an unparsable network makes
ip_network raise, so the except block records the error while the finally
block still marks the task finished; a non-positive thread count makes
the ThreadPoolExecutor constructor raise after total was already set;
otherwise every host future is collected in submission order, and the
finally block then clears is_scanning, records end_time and, when quality
checking was enabled and results are nonempty, sorts results by
descending score. -/
def scan_network_thread (t : Task) (probe : Nat → Option ProbeResult)
    (startT endT : Nat) : Task :=
  let t := { t with is_scanning := true, start_time := some startT }
  let t :=
    match parseIPv4Network t.network with
    | none => { t with errField := some "invalid network" }
    | some net =>
      let t := { t with total := numAddresses net }
      if t.threads ≤ 0 then
        { t with errField := some "max_workers must be greater than 0" }
      else
        let s := finalSnap net probe
        { t with scanned := s.scanned, progress := s.progress,
                 results := s.results }
  let t := { t with is_scanning := false, end_time := some endT }
  if t.check_proxy_quality && !t.results.isEmpty then
    { t with results := sortByScoreDesc t.results }
  else t

/-- The scan_tasks dictionary (backend.py line 23), keyed by task id. -/
def Registry : Type := Nat → Option Task

/-- The registry with no tasks. -/
def emptyRegistry : Registry := fun _ => none

/-- Point update of the registry. -/
def updateReg (reg : Registry) (id : Nat) (v : Option Task) : Registry :=
  fun j => if j = id then v else reg j

/-- Error outcomes the handlers surface to callers: NotFound is the 404
of a missing task id, Conflict the 400 of deleting a running task, and
InvalidInput the 400 of a malformed request. -/
inductive ApiError where
  | notFound
  | conflict
  | invalidInput
deriving DecidableEq, Repr

/-- start_scan (backend.py lines 468-525) after JSON field extraction:
the network must parse (ip_network raises ValueError otherwise, answered
with 400) and the port must lie in 1-65535 (400 otherwise); then a fresh
task is created and stored and its snapshot returned.  The thread count
is stored without any validation.  freshId stands for the generated uuid,
assumed unused; now is the creation timestamp. -/
def start_scan (reg : Registry) (freshId : Nat) (network : String)
    (port threads : Int) (check_proxy_quality : Bool) (now : Nat) :
    Except ApiError Task × Registry :=
  match parseIPv4Network network with
  | none => (.error .invalidInput, reg)
  | some _ =>
    if port < 1 ∨ 65535 < port then (.error .invalidInput, reg)
    else
      let t := ScanTask.init network port threads check_proxy_quality now
      (.ok t, updateReg reg freshId (some t))

/-- get_task_status (backend.py lines 528-543): the snapshot of the task,
or NotFound. -/
def get_task_status (reg : Registry) (id : Nat) : Except ApiError Task :=
  match reg id with
  | none => .error .notFound
  | some t => .ok t

/-- delete_task (backend.py lines 583-606): NotFound for a missing id,
Conflict (the 400 of a running task) leaving the registry untouched, and
otherwise removal of the task. -/
def delete_task (reg : Registry) (id : Nat) :
    Except ApiError Unit × Registry :=
  match reg id with
  | none => (.error .notFound, reg)
  | some t =>
    if t.is_scanning then (.error .conflict, reg)
    else (.ok (), updateReg reg id none)

/-! ## Interleaved view of the whole process

Each atomic mutation of the shared task map, by whichever thread performs
it, is one event.  A scan thread mutates only its own running task
(backend.py gives each task exactly one driving thread): it first marks
the task running, then collects one future per event, and finally, in the
finally block, clears is_scanning, records end_time and sorts - the
finally block runs once and is taken as one completion event.  Handler
reads, the cleanup sweep (backend.py lines 444-459) and deletion are the
other events touching the map. -/

inductive Event where
  | createTask (id : Nat) (network : String) (port threads : Int)
      (check_proxy_quality : Bool) (now : Nat)
  | scanStart (id : Nat) (startT : Nat) (total : Nat)
  | scanUnit (id : Nat) (r : Option ProbeResult)
  | scanFinish (id : Nat) (endT : Nat)
  | deleteReq (id : Nat)
  | sweep (now : Nat)
  | readReq

/-- Effect of one event on the task map.  Guards encode who may act: a
task is created only under a fresh uuid; the scan thread events apply
only to the states the single driving thread can observe (scanStart to a
never-started task, scanUnit and scanFinish only while is_scanning);
delete_task refuses a running task; the sweep removes non-scanning tasks
older than 3600 seconds. -/
def applyEvent (reg : Registry) : Event → Registry
  | .createTask id network port threads q now =>
    match reg id with
    | some _ => reg
    | none => updateReg reg id (some (ScanTask.init network port threads q now))
  | .scanStart id startT total =>
    match reg id with
    | some t =>
      if !t.is_scanning && t.start_time.isNone && t.end_time.isNone then
        updateReg reg id (some { t with is_scanning := true,
                                        start_time := some startT,
                                        total := total })
      else reg
    | none => reg
  | .scanUnit id r =>
    match reg id with
    | some t =>
      if t.is_scanning then
        updateReg reg id (some
          { t with scanned := t.scanned + 1,
                   progress := (t.scanned + 1) * 100 / t.total,
                   results :=
                     match r with
                     | some x => t.results ++ [x]
                     | none => t.results })
      else reg
    | none => reg
  | .scanFinish id endT =>
    match reg id with
    | some t =>
      if t.is_scanning then
        updateReg reg id (some
          { t with is_scanning := false, end_time := some endT,
                   results :=
                     if t.check_proxy_quality && !t.results.isEmpty then
                       sortByScoreDesc t.results
                     else t.results })
      else reg
    | none => reg
  | .deleteReq id => (delete_task reg id).2
  | .sweep now =>
    fun j =>
      match reg j with
      | some t =>
        if !t.is_scanning && 3600 < now - t.created_at then none
        else some t
      | none => none
  | .readReq => reg

/-- A task state in which the scan is over: not scanning and end time
recorded. -/
def Task.terminal (t : Task) : Bool :=
  !t.is_scanning && t.end_time.isSome

/-! ## Scorer as worded by the specification

The following five definitions transcribe the words of the specification
(section 4.6 and the scoring claim), to be compared with the scorer
embedded from the source.  They are deliberately written from the spec
text, not from backend.py. -/

/-- Spec wording: accessible-site bonus is +30 for at least 3 sites, +25
for 2, +20 for 1, +0 for 0. -/
def specSiteBonus (n : Nat) : Nat :=
  if n ≥ 3 then 30 else if n = 2 then 25 else if n = 1 then 20 else 0

/-- Spec wording: latency buckets on the single best latency in
milliseconds, first matching ascending threshold. -/
def specLatencyBonus (t : ℚ) : Nat :=
  if t < 300 then 30
  else if t < 600 then 25
  else if t < 1000 then 20
  else if t < 2000 then 15
  else if t < 3000 then 10
  else if t < 5000 then 5
  else 0

/-- Spec wording: endpoint bonus from the count of available named
endpoints. -/
def specEndpointBonus (n : Nat) : Nat :=
  if n ≥ 4 then 10 else if n ≥ 3 then 8 else if n ≥ 2 then 6
  else if n ≥ 1 then 4 else 0

/-- The endpoint-availability count of a report: the number of available
named endpoints, zero when no endpoint report exists. -/
def specAvailCount : Option AIReport → Nat
  | none => 0
  | some r => r.availableCount

/-- Spec wording: band mapping by inclusive lower bounds, highest
matching band wins. -/
def specBand (score : Nat) : String :=
  if score ≥ 85 then "excellent"
  else if score ≥ 70 then "good"
  else if score ≥ 55 then "fair"
  else if score ≥ 40 then "poor"
  else "bad"

/-! ## Concrete environments for the scenario claims and witnesses -/

/-- No AI endpoint available. -/
def ai0 : AIReport := { chatgpt := false, claude := false, gemini := false, copilot := false }

/-- The environment of the scoring scenario: through the candidate as an
HTTP proxy, the geolocation probe answers 200 in 250 ms with a parseable
body, the Google beacon answers 204 in 280 ms, and the media site fails
at connection level; SOCKS5 is irrelevant (and never reached). -/
def o3 : ProxyProtocol → Site → ProbeOutcome
  | .http, .ipCheck =>
    .response 200 250 (some { geoIp := some "203.0.113.9", country := some "Japan",
                              countryCode := some "JP", city := some "Tokyo",
                              region := some "Tokyo" })
  | .http, .google => .response 204 280 none
  | .http, .youtube => .exc "Connection error"
  | .socks5, _ => .exc "Proxy connection failed"

/-- An environment where an early reference-site attempt fails, a later
one succeeds, and the last one fails again. -/
def o10 : ProxyProtocol → Site → ProbeOutcome
  | .http, .ipCheck => .exc "Request timeout"
  | .http, .google => .response 204 300 none
  | .http, .youtube => .exc "Connection error"
  | .socks5, _ => .exc "Proxy connection failed"

/-- An environment where every probe under every protocol fails. -/
def oDown : ProxyProtocol → Site → ProbeOutcome :=
  fun _ _ => .exc "Connection error"

/-- A task that has finished its scan (terminal state). -/
def taskDone : Task :=
  { ScanTask.init "10.0.0.0/30" 22 2 false 0 with
      is_scanning := false, total := 4, scanned := 2, progress := 50,
      start_time := some 1, end_time := some 5 }

/-- A quality-checking task in the middle of its scan, one open port
found so far. -/
def taskRunning : Task :=
  { ScanTask.init "10.0.0.0/24" 7890 50 true 0 with
      is_scanning := true, total := 256, scanned := 10, progress := 3,
      start_time := some 1,
      results := [{ ip := 167772161, port := 7890, status := "open",
                    timestamp := 2, proxy_quality := none }] }
/-! ## Helper lemmas -/

theorem recordGeo_is_working (site : Site) (status : Nat) (geo : Option GeoData)
    (info : ProxyInfo) : (recordGeo site status geo info).is_working = info.is_working := by
  unfold recordGeo; split <;> (try split) <;> rfl

theorem recordGeo_errField (site : Site) (status : Nat) (geo : Option GeoData)
    (info : ProxyInfo) : (recordGeo site status geo info).errField = info.errField := by
  unfold recordGeo; split <;> (try split) <;> rfl

theorem recordGeo_response_time (site : Site) (status : Nat) (geo : Option GeoData)
    (info : ProxyInfo) : (recordGeo site status geo info).response_time = info.response_time := by
  unfold recordGeo; split <;> (try split) <;> rfl

theorem recordAccessible_is_working (site : Site) (info : ProxyInfo) :
    (recordAccessible site info).is_working = info.is_working := by
  unfold recordAccessible; split <;> rfl

theorem recordAccessible_errField (site : Site) (info : ProxyInfo) :
    (recordAccessible site info).errField = info.errField := by
  unfold recordAccessible; split <;> rfl

theorem recordAccessible_response_time (site : Site) (info : ProxyInfo) :
    (recordAccessible site info).response_time = info.response_time := by
  unfold recordAccessible; split <;> rfl

theorem recordSiteFlag_is_working (site : Site) (info : ProxyInfo) :
    (recordSiteFlag site info).is_working = info.is_working := by
  unfold recordSiteFlag; split <;> rfl

theorem recordSiteFlag_errField (site : Site) (info : ProxyInfo) :
    (recordSiteFlag site info).errField = info.errField := by
  unfold recordSiteFlag; split <;> rfl

theorem recordSiteFlag_response_time (site : Site) (info : ProxyInfo) :
    (recordSiteFlag site info).response_time = info.response_time := by
  unfold recordSiteFlag; split <;> rfl

theorem recordBest_is_working (e : ℚ) (info : ProxyInfo) :
    (recordBest e info).is_working = info.is_working := by
  unfold recordBest; split <;> (try split) <;> rfl

theorem recordBest_errField (e : ℚ) (info : ProxyInfo) :
    (recordBest e info).errField = info.errField := by
  unfold recordBest; split <;> (try split) <;> rfl

theorem recordBest_rt_isSome (e : ℚ) (info : ProxyInfo) :
    (recordBest e info).response_time.isSome = true := by
  unfold recordBest
  cases h : info.response_time with
  | none => rfl
  | some b => dsimp only; split <;> simp [h]

theorem processSite_is_working (cfg : ProxyProtocol) (s : Site)
    (o : ProxyProtocol → Site → ProbeOutcome) (i : ProxyInfo) :
    (processSite cfg s o i).is_working = (i.is_working || (o cfg s).isOk) := by
  unfold processSite ProbeOutcome.isOk
  cases o cfg s with
  | exc m => simp
  | response st e g =>
    by_cases hv : validStatus st
    · simp [hv, recordBest_is_working, recordSiteFlag_is_working,
        recordAccessible_is_working, recordGeo_is_working]
    · simp [hv]

theorem processSite_errField_exc (cfg : ProxyProtocol) (s : Site)
    (o : ProxyProtocol → Site → ProbeOutcome) (i : ProxyInfo) (msg : String)
    (h : o cfg s = ProbeOutcome.exc msg) :
    (processSite cfg s o i).errField = some msg := by
  unfold processSite; rw [h]

theorem processSite_errField_response (cfg : ProxyProtocol) (s : Site)
    (o : ProxyProtocol → Site → ProbeOutcome) (i : ProxyInfo)
    (st : Nat) (e : ℚ) (g : Option GeoData)
    (h : o cfg s = ProbeOutcome.response st e g) :
    (processSite cfg s o i).errField = i.errField := by
  unfold processSite; rw [h]
  by_cases hv : validStatus st
  · simp [hv, recordBest_errField, recordSiteFlag_errField,
      recordAccessible_errField, recordGeo_errField]
  · simp [hv]

theorem processSite_rt_isSome (cfg : ProxyProtocol) (s : Site)
    (o : ProxyProtocol → Site → ProbeOutcome) (i : ProxyInfo) :
    (processSite cfg s o i).response_time.isSome
      = (i.response_time.isSome || (o cfg s).isOk) := by
  unfold processSite ProbeOutcome.isOk
  cases o cfg s with
  | exc m => simp
  | response st e g =>
    by_cases hv : validStatus st
    · simp only [hv, if_true]
      simp [recordBest_rt_isSome]
    · simp [hv]

theorem runConfig_is_working (cfg : ProxyProtocol)
    (o : ProxyProtocol → Site → ProbeOutcome) (i : ProxyInfo) :
    (runConfig cfg o i).is_working
      = (i.is_working || (o cfg Site.ipCheck).isOk || (o cfg Site.google).isOk
          || (o cfg Site.youtube).isOk) := by
  unfold runConfig sortedTestSites
  simp [List.foldl, processSite_is_working, Bool.or_assoc]

theorem runConfig_rt_isSome (cfg : ProxyProtocol)
    (o : ProxyProtocol → Site → ProbeOutcome) (i : ProxyInfo) :
    (runConfig cfg o i).response_time.isSome
      = (i.response_time.isSome || (o cfg Site.ipCheck).isOk || (o cfg Site.google).isOk
          || (o cfg Site.youtube).isOk) := by
  unfold runConfig sortedTestSites
  simp [List.foldl, processSite_rt_isSome, Bool.or_assoc]

theorem runConfigs_working_iff_rt (cfgs : List ProxyProtocol)
    (o : ProxyProtocol → Site → ProbeOutcome) (i : ProxyInfo)
    (h : i.is_working = i.response_time.isSome) :
    ((runConfigs cfgs o i).1).is_working
      = ((runConfigs cfgs o i).1).response_time.isSome := by
  induction cfgs generalizing i with
  | nil => simpa [runConfigs]
  | cons cfg rest ih =>
    have hstep : (runConfig cfg o i).is_working
        = (runConfig cfg o i).response_time.isSome := by
      rw [runConfig_is_working, runConfig_rt_isSome, h]
    unfold runConfigs
    dsimp only
    split
    · exact hstep
    · exact ih (runConfig cfg o i) hstep

theorem finalizeQuality_is_working (i : ProxyInfo) :
    (finalizeQuality i).is_working = i.is_working := by
  unfold finalizeQuality; split <;> rfl

theorem finalizeQuality_response_time (i : ProxyInfo) :
    (finalizeQuality i).response_time = i.response_time := by
  unfold finalizeQuality; split <;> rfl

theorem finalizeQuality_accessible (i : ProxyInfo) :
    (finalizeQuality i).accessible_sites = i.accessible_sites := by
  unfold finalizeQuality; split <;> rfl

theorem finalizeQuality_ai (i : ProxyInfo) :
    (finalizeQuality i).ai_models = i.ai_models := by
  unfold finalizeQuality; split <;> rfl

theorem finalizeQuality_score_of_working (i : ProxyInfo) (h : i.is_working = true) :
    (finalizeQuality i).quality_score
        = 30 + siteBonus i.accessible_sites.length + latencyBonus i.response_time
            + aiBonus i.ai_models
      ∧ (finalizeQuality i).quality_level
        = qualityLevelOf (30 + siteBonus i.accessible_sites.length
            + latencyBonus i.response_time + aiBonus i.ai_models) := by
  unfold finalizeQuality
  rw [h]
  exact ⟨rfl, rfl⟩

theorem finalizeQuality_level_not_working (i : ProxyInfo) (h : i.is_working = false) :
    (finalizeQuality i).quality_level = "unavailable" := by
  unfold finalizeQuality
  rw [h]
  rfl

theorem siteBonus_eq_spec (n : Nat) : siteBonus n = specSiteBonus n := by
  unfold siteBonus specSiteBonus
  split_ifs <;> omega

theorem aiBonus_eq_spec (m : Option AIReport) :
    aiBonus m = specEndpointBonus (specAvailCount m) := by
  cases m with
  | none => rfl
  | some r => rfl

theorem qualityLevelOf_eq_spec (s : Nat) : qualityLevelOf s = specBand s := rfl

theorem latencyBonus_some (t : ℚ) : latencyBonus (some t) = specLatencyBonus t := rfl

theorem siteBonus_le (n : Nat) : siteBonus n ≤ 30 := by
  unfold siteBonus; split_ifs <;> omega

theorem latencyBonus_le (t : Option ℚ) : latencyBonus t ≤ 30 := by
  cases t with
  | none => simp [latencyBonus]
  | some q =>
    show (if q < 300 then 30 else if q < 600 then 25 else if q < 1000 then 20
      else if q < 2000 then 15 else if q < 3000 then 10 else if q < 5000 then 5
      else 0) ≤ 30
    split_ifs <;> omega

theorem aiBonus_le (m : Option AIReport) : aiBonus m ≤ 10 := by
  cases m with
  | none => simp [aiBonus]
  | some r =>
    show (if 4 ≤ r.availableCount then 10 else if 3 ≤ r.availableCount then 8
      else if 2 ≤ r.availableCount then 6 else if 1 ≤ r.availableCount then 4
      else 0) ≤ 10
    split_ifs <;> omega

theorem runScanLoop_total (T : Nat) (p : Nat → Option ProbeResult)
    (hosts : List Nat) (s : ScanSnap) :
    (runScanLoop T p hosts s).total = s.total := by
  induction hosts generalizing s with
  | nil => rfl
  | cons ip rest ih => exact ih (stepSnap T p ip s)

theorem runScanLoop_scanned (T : Nat) (p : Nat → Option ProbeResult)
    (hosts : List Nat) (s : ScanSnap) :
    (runScanLoop T p hosts s).scanned = s.scanned + hosts.length := by
  induction hosts generalizing s with
  | nil => rfl
  | cons ip rest ih =>
    have h := ih (stepSnap T p ip s)
    show (runScanLoop T p rest (stepSnap T p ip s)).scanned = s.scanned + (rest.length + 1)
    rw [h]
    show s.scanned + 1 + rest.length = s.scanned + (rest.length + 1)
    omega

theorem scanTrace_chain (T : Nat) (p : Nat → Option ProbeResult)
    (hosts : List Nat) (s : ScanSnap) :
    List.Chain' (fun a b => a.scanned ≤ b.scanned) (s :: scanTrace T p hosts s) := by
  induction hosts generalizing s with
  | nil => simp [scanTrace]
  | cons ip rest ih =>
    rw [show scanTrace T p (ip :: rest) s
        = stepSnap T p ip s :: scanTrace T p rest (stepSnap T p ip s) from rfl]
    exact List.Chain'.cons (by simp [stepSnap]) (ih (stepSnap T p ip s))

theorem scanTrace_progress (T : Nat) (p : Nat → Option ProbeResult)
    (hosts : List Nat) (s : ScanSnap) (hT : s.total = T) :
    ((scanTrace T p hosts s).all fun x => x.progress == x.scanned * 100 / x.total) = true := by
  induction hosts generalizing s with
  | nil => rfl
  | cons ip rest ih =>
    rw [show scanTrace T p (ip :: rest) s
        = stepSnap T p ip s :: scanTrace T p rest (stepSnap T p ip s) from rfl]
    rw [List.all_cons, Bool.and_eq_true]
    exact ⟨by simp [stepSnap, hT], ih (stepSnap T p ip s) (by simp [stepSnap, hT])⟩
/-! ## The claims -/

/-- Claim C1, evidence of the divergence: scan_network_thread sets the
total of the task from num_addresses, which counts every address of the
block including the network and broadcast addresses, while it submits one
probe per usable host only.  On the network 10.0.0.0/30 with port 22,
concurrency 2, no quality check and no host accepting connections, the
completed task therefore carries total 4 and scanned 2 with empty
results, not the total 2 the claim states. -/
theorem C1_total_counts_all_addresses :
    (∀ (net : IPv4Network) (probe : Nat → Option ProbeResult),
        (finalSnap net probe).total = numAddresses net ∧
        (finalSnap net probe).scanned = (hostsList net).length) ∧
    (parseIPv4Network "10.0.0.0/30" = some { base := 167772160, plen := 30 } ∧
     (hostsList { base := 167772160, plen := 30 }).length = 2 ∧
     scan_network_thread (ScanTask.init "10.0.0.0/30" 22 2 false 0) (fun _ => none) 1 2
       = { network := "10.0.0.0/30"
           port := 22
           threads := 2
           check_proxy_quality := false
           is_scanning := false
           progress := 50
           total := 4
           scanned := 2
           results := []
           start_time := some 1
           end_time := some 2
           errField := none
           created_at := 0 } ∧
     ¬ (scan_network_thread (ScanTask.init "10.0.0.0/30" 22 2 false 0) (fun _ => none) 1 2).total
         = 2) := by
  constructor
  · intro net probe
    refine ⟨runScanLoop_total _ _ _ _, ?_⟩
    have h := runScanLoop_scanned (numAddresses net) probe (hostsList net)
      (initSnap (numAddresses net))
    simpa [initSnap] using h
  · refine ⟨by decide, by decide, by decide, by decide⟩

/-- Claim C2: along every scan, scanned is monotonically non-decreasing
and progress always equals the integer part of scanned/total*100; but at
termination scanned equals the number of enumerated hosts, which on
10.0.0.0/30 is 2 while total is 4, so scanned does not reach total. -/
theorem C2_progress_floor_and_total_mismatch :
    (∀ (net : IPv4Network) (probe : Nat → Option ProbeResult),
        List.Chain' (fun a b => a.scanned ≤ b.scanned) (runScanTrace net probe)) ∧
    (∀ (net : IPv4Network) (probe : Nat → Option ProbeResult),
        ((runScanTrace net probe).all fun x => x.progress == x.scanned * 100 / x.total) = true) ∧
    (parseIPv4Network "10.0.0.0/30" = some { base := 167772160, plen := 30 } ∧
     (finalSnap { base := 167772160, plen := 30 } (fun _ => none)).scanned = 2 ∧
     (finalSnap { base := 167772160, plen := 30 } (fun _ => none)).total = 4 ∧
     ¬ (finalSnap { base := 167772160, plen := 30 } (fun _ => none)).scanned
         = (finalSnap { base := 167772160, plen := 30 } (fun _ => none)).total) := by
  refine ⟨?_, ?_, by decide, by decide, by decide, by decide⟩
  · intro net probe
    exact scanTrace_chain _ _ _ _
  · intro net probe
    unfold runScanTrace
    rw [List.all_cons, Bool.and_eq_true]
    exact ⟨by simp [initSnap], scanTrace_progress _ _ _ _ rfl⟩

/-- Claim C3, counterexample: in the described scenario (geolocation probe
answers 200 in 250 ms, beacon answers 204, media site fails, zero
endpoints available) the accessible-site list holds only Google, so the
report does not have accessible count 2, score 85 and band excellent. -/
theorem C3_counterexample :
    (test_proxy_quality o3 ai0 true).is_working = true ∧
    (test_proxy_quality o3 ai0 true).response_time = some 250 ∧
    (test_proxy_quality o3 ai0 true).proxy_type = "http" ∧
    ¬ ((test_proxy_quality o3 ai0 true).accessible_sites.length = 2 ∧
       (test_proxy_quality o3 ai0 true).quality_score = 85 ∧
       (test_proxy_quality o3 ai0 true).quality_level = "excellent") := by
  refine ⟨by decide, by decide, by decide, by decide⟩

/-- Claim C3 as amended: in that scenario the geolocation probe is
excluded from the accessible tally, so the accessible-site count is 1 and
the score is 30 + 20 + 30 = 80, giving band good. -/
theorem C3_accessible_count_amended :
    (test_proxy_quality o3 ai0 true).is_working = true ∧
    (test_proxy_quality o3 ai0 true).accessible_sites = ["Google"] ∧
    (test_proxy_quality o3 ai0 true).quality_score = 80 ∧
    (test_proxy_quality o3 ai0 true).quality_level = "good" := by
  refine ⟨by decide, by decide, by decide, by decide⟩

/-- Claim C4: for every environment, a working report carries a best
latency, and its score is exactly 30 plus the three bonus terms as worded
by the spec, lies in the interval from 30 to 100, and its band follows the
inclusive lower bounds; a non-working report always gets band
unavailable. -/
theorem C4_quality_scorer (o : ProxyProtocol → Site → ProbeOutcome)
    (ai : AIReport) (checkAI : Bool) :
    ((test_proxy_quality o ai checkAI).is_working = true →
      ∃ rt, (test_proxy_quality o ai checkAI).response_time = some rt ∧
        (test_proxy_quality o ai checkAI).quality_score
          = 30 + specSiteBonus (test_proxy_quality o ai checkAI).accessible_sites.length
              + specLatencyBonus rt
              + specEndpointBonus (specAvailCount (test_proxy_quality o ai checkAI).ai_models) ∧
        30 ≤ (test_proxy_quality o ai checkAI).quality_score ∧
        (test_proxy_quality o ai checkAI).quality_score ≤ 100 ∧
        (test_proxy_quality o ai checkAI).quality_level
          = specBand (test_proxy_quality o ai checkAI).quality_score) ∧
    ((test_proxy_quality o ai checkAI).is_working = false →
      (test_proxy_quality o ai checkAI).quality_level = "unavailable") := by
  have hred : test_proxy_quality o ai checkAI
      = finalizeQuality
          (if ((runConfigs [ProxyProtocol.http, ProxyProtocol.socks5] o initProxyInfo).1).is_working
              && checkAI
           then { (runConfigs [ProxyProtocol.http, ProxyProtocol.socks5] o initProxyInfo).1
                    with ai_models := some ai }
           else (runConfigs [ProxyProtocol.http, ProxyProtocol.socks5] o initProxyInfo).1) := rfl
  set info0 := (runConfigs [ProxyProtocol.http, ProxyProtocol.socks5] o initProxyInfo).1 with hinfo0
  set info1 := if info0.is_working && checkAI then { info0 with ai_models := some ai } else info0
    with hinfo1
  have h01w : info1.is_working = info0.is_working := by rw [hinfo1]; split <;> rfl
  have h01rt : info1.response_time = info0.response_time := by rw [hinfo1]; split <;> rfl
  have h0 : info0.is_working = info0.response_time.isSome := by
    rw [hinfo0]
    exact runConfigs_working_iff_rt _ o initProxyInfo rfl
  rw [hred]
  constructor
  · intro hw
    rw [finalizeQuality_is_working] at hw
    have hrtS : info1.response_time.isSome = true := by
      rw [h01rt, ← h0, ← h01w]; exact hw
    obtain ⟨rt, hrt⟩ := Option.isSome_iff_exists.mp hrtS
    obtain ⟨hscore, hlevel⟩ := finalizeQuality_score_of_working info1 hw
    refine ⟨rt, ?_, ?_, ?_, ?_, ?_⟩
    · rw [finalizeQuality_response_time]; exact hrt
    · rw [hscore, finalizeQuality_accessible, finalizeQuality_ai,
        siteBonus_eq_spec, hrt, latencyBonus_some, aiBonus_eq_spec]
    · rw [hscore]; omega
    · rw [hscore]
      have h1 := siteBonus_le info1.accessible_sites.length
      have h2 := latencyBonus_le info1.response_time
      have h3 := aiBonus_le info1.ai_models
      omega
    · rw [hlevel, hscore, qualityLevelOf_eq_spec]
  · intro hnw
    rw [finalizeQuality_is_working] at hnw
    exact finalizeQuality_level_not_working info1 hnw

/-- Witness for claim C4: the scenario environment yields a working
report satisfying the scoring characterization, and the all-failing
environment yields band unavailable. -/
theorem C4_quality_scorer_witness :
    ((test_proxy_quality o3 ai0 true).is_working = true ∧
     (∃ rt, (test_proxy_quality o3 ai0 true).response_time = some rt ∧
       (test_proxy_quality o3 ai0 true).quality_score
         = 30 + specSiteBonus (test_proxy_quality o3 ai0 true).accessible_sites.length
             + specLatencyBonus rt
             + specEndpointBonus (specAvailCount (test_proxy_quality o3 ai0 true).ai_models) ∧
       30 ≤ (test_proxy_quality o3 ai0 true).quality_score ∧
       (test_proxy_quality o3 ai0 true).quality_score ≤ 100 ∧
       (test_proxy_quality o3 ai0 true).quality_level
         = specBand (test_proxy_quality o3 ai0 true).quality_score)) ∧
    ((test_proxy_quality oDown ai0 true).is_working = false ∧
     (test_proxy_quality oDown ai0 true).quality_level = "unavailable") := by
  refine ⟨⟨by decide, (C4_quality_scorer o3 ai0 true).1 (by decide)⟩,
          ⟨by decide, (C4_quality_scorer oDown ai0 true).2 (by decide)⟩⟩

/-- Claim C5: when any reference-site probe under HTTP succeeds, the
probe-attempt trace consists of exactly the three HTTP attempts in
ascending priority order and SOCKS5 is never attempted; when no HTTP
probe succeeds, all three SOCKS5 attempts follow, and the site order
within each protocol is the ascending priority order 1, 2, 3. -/
theorem C5_protocol_lock_in (o : ProxyProtocol → Site → ProbeOutcome) :
    ((sortedTestSites.any fun s => (o ProxyProtocol.http s).isOk) = true →
        attemptTrace o = sortedTestSites.map fun s => (ProxyProtocol.http, s)) ∧
    ((sortedTestSites.any fun s => (o ProxyProtocol.http s).isOk) = false →
        attemptTrace o
          = (sortedTestSites.map fun s => (ProxyProtocol.http, s))
              ++ sortedTestSites.map fun s => (ProxyProtocol.socks5, s)) ∧
    sortedTestSites.map Site.priority = [1, 2, 3] := by
  have hw : (runConfig ProxyProtocol.http o initProxyInfo).is_working
      = (sortedTestSites.any fun s => (o ProxyProtocol.http s).isOk) := by
    rw [runConfig_is_working]
    simp [sortedTestSites, initProxyInfo, Bool.or_assoc]
  refine ⟨?_, ?_, rfl⟩
  · intro h
    unfold attemptTrace runConfigs
    simp only [hw, h, if_true]
  · intro h
    unfold attemptTrace runConfigs
    simp only [hw, h, Bool.false_eq_true, if_false]
    congr 1
    unfold runConfigs
    dsimp only
    split <;> simp [runConfigs]

/-- Witness for claim C5: under the scenario environment HTTP succeeds
and the trace is the three HTTP attempts; under the all-failing
environment the trace is all six attempts in protocol order. -/
theorem C5_protocol_lock_in_witness :
    ((sortedTestSites.any fun s => (o3 ProxyProtocol.http s).isOk) = true ∧
     attemptTrace o3 = sortedTestSites.map fun s => (ProxyProtocol.http, s)) ∧
    ((sortedTestSites.any fun s => (oDown ProxyProtocol.http s).isOk) = false ∧
     attemptTrace oDown
       = (sortedTestSites.map fun s => (ProxyProtocol.http, s))
           ++ sortedTestSites.map fun s => (ProxyProtocol.socks5, s)) := by
  exact ⟨⟨by decide, (C5_protocol_lock_in o3).1 (by decide)⟩,
         ⟨by decide, (C5_protocol_lock_in oDown).2.1 (by decide)⟩⟩
/-- Claim C6: once a task in the map is terminal (not scanning, end time
recorded), no event of the system changes it - any event either leaves
it exactly as it is or removes it whole (deletion or sweep); and the
score-order re-sort happens exactly at the completion event, replacing
the completion-order list of a running quality-checking task. -/
theorem C6_terminal_results_frozen :
    (∀ (reg : Registry) (e : Event) (id : Nat) (t : Task),
        reg id = some t → t.terminal = true →
        applyEvent reg e id = none ∨ applyEvent reg e id = some t) ∧
    (∀ (reg : Registry) (id : Nat) (t : Task) (endT : Nat),
        reg id = some t → t.is_scanning = true →
        applyEvent reg (Event.scanFinish id endT) id
          = some { t with
                    is_scanning := false
                    end_time := some endT
                    results :=
                      if t.check_proxy_quality && !t.results.isEmpty then
                        sortByScoreDesc t.results
                      else t.results }) := by
  constructor
  · intro reg e id t hreg hterm
    unfold Task.terminal at hterm
    rw [Bool.and_eq_true] at hterm
    have hscan : t.is_scanning = false := by
      cases h : t.is_scanning
      · rfl
      · rw [h] at hterm; exact absurd hterm.1 (by simp)
    have hend : t.end_time.isSome = true := hterm.2
    cases e with
    | createTask j nw p th q now =>
      right
      simp only [applyEvent]
      cases h : reg j with
      | some t' => exact hreg
      | none =>
        dsimp only [updateReg]
        have hj : ¬ id = j := fun he => by rw [he, h] at hreg; exact Option.noConfusion hreg
        rw [if_neg hj]
        exact hreg
    | scanStart j startT total =>
      right
      simp only [applyEvent]
      cases h : reg j with
      | none => exact hreg
      | some t' =>
        dsimp only
        by_cases hj : id = j
        · have ht' : t' = t := by rw [hj, h] at hreg; exact Option.some.inj hreg
          rw [ht']
          have hn : t.end_time.isNone = false := by
            cases he : t.end_time
            · rw [he] at hend; exact absurd hend (by simp)
            · rfl
          have hguard : (!t.is_scanning && t.start_time.isNone && t.end_time.isNone) = false := by
            rw [hn, Bool.and_false]
          rw [hguard]
          simp only [Bool.false_eq_true, if_false]
          exact hreg
        · split
          · dsimp only [updateReg]
            rw [if_neg hj]
            exact hreg
          · exact hreg
    | scanUnit j r =>
      right
      simp only [applyEvent]
      cases h : reg j with
      | none => exact hreg
      | some t' =>
        dsimp only
        by_cases hj : id = j
        · have ht' : t' = t := by rw [hj, h] at hreg; exact Option.some.inj hreg
          rw [ht', hscan]
          simp only [Bool.false_eq_true, if_false]
          exact hreg
        · split
          · dsimp only [updateReg]
            rw [if_neg hj]
            exact hreg
          · exact hreg
    | scanFinish j endT =>
      right
      simp only [applyEvent]
      cases h : reg j with
      | none => exact hreg
      | some t' =>
        dsimp only
        by_cases hj : id = j
        · have ht' : t' = t := by rw [hj, h] at hreg; exact Option.some.inj hreg
          rw [ht', hscan]
          simp only [Bool.false_eq_true, if_false]
          exact hreg
        · split
          · dsimp only [updateReg]
            rw [if_neg hj]
            exact hreg
          · exact hreg
    | deleteReq j =>
      simp only [applyEvent, delete_task]
      cases h : reg j with
      | none => right; exact hreg
      | some t' =>
        dsimp only
        by_cases hj : id = j
        · subst hj
          have ht' : t' = t := by rw [h] at hreg; exact Option.some.inj hreg
          rw [ht', hscan]
          simp only [Bool.false_eq_true, if_false]
          left
          dsimp only [updateReg]
          rw [if_pos rfl]
        · split
          · right; exact hreg
          · right
            dsimp only [updateReg]
            rw [if_neg hj]
            exact hreg
    | sweep now =>
      simp only [applyEvent]
      rw [hreg]
      dsimp only
      split
      · left; rfl
      · right; rfl
    | readReq =>
      right
      exact hreg
  · intro reg id t endT hreg hscan
    simp only [applyEvent]
    rw [hreg]
    dsimp only
    rw [hscan]
    rw [if_pos rfl]
    dsimp only [updateReg]
    rw [if_pos rfl]

/-- Witness for claim C6: a concrete terminal task is untouched by a
collection event aimed at it, and a concrete running quality-checking
task gets its results frozen in sorted form by the completion event. -/
theorem C6_terminal_results_frozen_witness :
    (applyEvent (updateReg emptyRegistry 7 (some taskDone)) (Event.scanUnit 7 none) 7 = none ∨
     applyEvent (updateReg emptyRegistry 7 (some taskDone)) (Event.scanUnit 7 none) 7
       = some taskDone) ∧
    applyEvent (updateReg emptyRegistry 9 (some taskRunning)) (Event.scanFinish 9 11) 9
      = some { taskRunning with
                is_scanning := false
                end_time := some 11
                results :=
                  if taskRunning.check_proxy_quality && !taskRunning.results.isEmpty then
                    sortByScoreDesc taskRunning.results
                  else taskRunning.results } := by
  exact ⟨C6_terminal_results_frozen.1 _ (Event.scanUnit 7 none) 7 taskDone rfl (by decide),
         C6_terminal_results_frozen.2 _ 9 taskRunning 11 rfl (by decide)⟩

/-- Claim C7: scan_port is a total function of the connection outcome
that yields an open result with the discovery timestamp exactly when
connect_ex returned 0, and the absence value None on every other outcome
(nonzero code or raised exception), without distinguishing them and
without a second attempt. -/
theorem C7_scan_port_boundary :
    ∀ (ip port : Nat) (cq : Bool) (now : Nat) (conn : ConnectOutcome)
      (oracle : ProxyProtocol → Site → ProbeOutcome) (ai : AIReport),
      (conn = ConnectOutcome.result 0 →
        scan_port ip port cq now conn oracle ai
          = some { ip := ip
                   port := port
                   status := "open"
                   timestamp := now
                   proxy_quality :=
                     if cq then some (test_proxy_quality oracle ai true) else none }) ∧
      (conn ≠ ConnectOutcome.result 0 →
        scan_port ip port cq now conn oracle ai = none) := by
  intro ip port cq now conn oracle ai
  constructor
  · intro h
    subst h
    simp [scan_port]
  · intro h
    cases conn with
    | raised m => rfl
    | result code =>
      have hc : ¬ code = 0 := fun hc => h (by rw [hc])
      simp [scan_port, hc]

/-- Witness for claim C7: a successful connect yields the open result;
a refused connect (errno 111) and a raised exception both yield None. -/
theorem C7_scan_port_boundary_witness :
    scan_port 167772161 22 false 7 (ConnectOutcome.result 0) oDown ai0
      = some { ip := 167772161
               port := 22
               status := "open"
               timestamp := 7
               proxy_quality := none } ∧
    scan_port 167772161 22 false 7 (ConnectOutcome.result 111) oDown ai0 = none ∧
    scan_port 167772161 22 false 7 (ConnectOutcome.raised "connect failed") oDown ai0 = none := by
  refine ⟨?_, ?_, ?_⟩
  · exact (C7_scan_port_boundary 167772161 22 false 7 (ConnectOutcome.result 0) oDown ai0).1 rfl
  · exact (C7_scan_port_boundary 167772161 22 false 7 (ConnectOutcome.result 111) oDown ai0).2
      (by decide)
  · exact (C7_scan_port_boundary 167772161 22 false 7
      (ConnectOutcome.raised "connect failed") oDown ai0).2 (by decide)

/-- Claim C8: deleting a running task answers Conflict and leaves the
registry, and hence the task, untouched; deleting the same task once it
is no longer scanning succeeds and a later get answers NotFound. -/
theorem C8_delete_lifecycle :
    ∀ (reg : Registry) (id : Nat) (t : Task), reg id = some t →
      (t.is_scanning = true →
        delete_task reg id = (Except.error ApiError.conflict, reg) ∧
        get_task_status reg id = Except.ok t) ∧
      (t.is_scanning = false →
        (delete_task reg id).1 = Except.ok () ∧
        get_task_status ((delete_task reg id).2) id = Except.error ApiError.notFound) := by
  intro reg id t hreg
  constructor
  · intro hs
    constructor
    · simp only [delete_task]
      rw [hreg]
      dsimp only
      rw [hs]
      rw [if_pos rfl]
    · simp only [get_task_status]
      rw [hreg]
  · intro hs
    have hdel : delete_task reg id = (Except.ok (), updateReg reg id none) := by
      simp only [delete_task]
      rw [hreg]
      dsimp only
      rw [hs]
      simp only [Bool.false_eq_true, if_false]
    constructor
    · rw [hdel]
    · rw [hdel]
      simp only [get_task_status]
      have hupd : updateReg reg id none id = none := by
        dsimp only [updateReg]
        rw [if_pos rfl]
      rw [hupd]

/-- Witness for claim C8: deleting the concrete running task answers
Conflict with the registry unchanged; deleting the concrete finished task
succeeds and the subsequent get answers NotFound. -/
theorem C8_delete_lifecycle_witness :
    (delete_task (updateReg emptyRegistry 7 (some taskRunning)) 7
      = (Except.error ApiError.conflict, updateReg emptyRegistry 7 (some taskRunning)) ∧
     get_task_status (updateReg emptyRegistry 7 (some taskRunning)) 7 = Except.ok taskRunning) ∧
    ((delete_task (updateReg emptyRegistry 7 (some taskDone)) 7).1 = Except.ok () ∧
     get_task_status ((delete_task (updateReg emptyRegistry 7 (some taskDone)) 7).2) 7
       = Except.error ApiError.notFound) := by
  constructor
  · exact (C8_delete_lifecycle (updateReg emptyRegistry 7 (some taskRunning)) 7 taskRunning
      rfl).1 rfl
  · exact (C8_delete_lifecycle (updateReg emptyRegistry 7 (some taskDone)) 7 taskDone
      rfl).2 rfl

/-- Claim C9, counterexample: a creation request with a valid network and
port but worker concurrency 0 is accepted, and the stored task carries the
non-positive thread count, so non-positive concurrency is not rejected at
the creation boundary. -/
theorem C9_counterexample :
    (start_scan emptyRegistry 0 "10.0.0.0/30" 22 0 false 0).1
      = Except.ok (ScanTask.init "10.0.0.0/30" 22 0 false 0) ∧
    (start_scan emptyRegistry 0 "10.0.0.0/30" 22 0 false 0).2 0
      = some (ScanTask.init "10.0.0.0/30" 22 0 false 0) ∧
    (ScanTask.init "10.0.0.0/30" 22 0 false 0).threads ≤ 0 := by
  refine ⟨rfl, rfl, by decide⟩

/-- Claim C9 as amended: a malformed network and an out-of-range port are
rejected synchronously with the registry unchanged, and every stored task
has a parseable network and a port in 1-65535; the thread count is stored
unvalidated. -/
theorem C9_validation_amended :
    ∀ (reg : Registry) (freshId : Nat) (network : String) (port threads : Int)
      (q : Bool) (now : Nat),
      (parseIPv4Network network = none →
        start_scan reg freshId network port threads q now
          = (Except.error ApiError.invalidInput, reg)) ∧
      ((port < 1 ∨ 65535 < port) →
        start_scan reg freshId network port threads q now
          = (Except.error ApiError.invalidInput, reg)) ∧
      (∀ t, (start_scan reg freshId network port threads q now).1 = Except.ok t →
        (parseIPv4Network network).isSome = true ∧ 1 ≤ port ∧ port ≤ 65535 ∧
        t = ScanTask.init network port threads q now ∧
        (start_scan reg freshId network port threads q now).2
          = updateReg reg freshId (some t)) := by
  intro reg freshId network port threads q now
  refine ⟨?_, ?_, ?_⟩
  · intro h
    simp only [start_scan]
    rw [h]
  · intro h
    simp only [start_scan]
    cases hp : parseIPv4Network network with
    | none => rfl
    | some n =>
      dsimp only
      rw [if_pos h]
  · intro t ht
    cases hp : parseIPv4Network network with
    | none =>
      rw [show start_scan reg freshId network port threads q now
          = (Except.error ApiError.invalidInput, reg) from by
        simp only [start_scan]; rw [hp]] at ht
      exact absurd ht (by simp)
    | some n =>
      by_cases hrange : port < 1 ∨ 65535 < port
      · rw [show start_scan reg freshId network port threads q now
            = (Except.error ApiError.invalidInput, reg) from by
          simp only [start_scan]; rw [hp]; dsimp only; rw [if_pos hrange]] at ht
        exact absurd ht (by simp)
      · have hs : start_scan reg freshId network port threads q now
            = (Except.ok (ScanTask.init network port threads q now),
               updateReg reg freshId (some (ScanTask.init network port threads q now))) := by
          simp only [start_scan]; rw [hp]; dsimp only; rw [if_neg hrange]
        rw [hs] at ht
        have ht' : t = ScanTask.init network port threads q now := (Except.ok.inj ht).symm
        refine ⟨rfl, by omega, by omega, ht', ?_⟩
        rw [hs, ht']

/-- Witness for claim C9 as amended: an unparsable network and an
out-of-range port are both rejected with the registry unchanged, while a
valid request stores exactly the freshly created task. -/
theorem C9_validation_amended_witness :
    start_scan emptyRegistry 3 "999.0.0.1/24" 22 50 false 0
      = (Except.error ApiError.invalidInput, emptyRegistry) ∧
    start_scan emptyRegistry 3 "10.0.0.0/24" 70000 50 false 0
      = (Except.error ApiError.invalidInput, emptyRegistry) ∧
    ((parseIPv4Network "10.0.0.0/24").isSome = true ∧ 1 ≤ (7890 : Int) ∧
      (7890 : Int) ≤ 65535 ∧
      ScanTask.init "10.0.0.0/24" 7890 50 true 0 = ScanTask.init "10.0.0.0/24" 7890 50 true 0 ∧
      (start_scan emptyRegistry 3 "10.0.0.0/24" 7890 50 true 0).2
        = updateReg emptyRegistry 3 (some (ScanTask.init "10.0.0.0/24" 7890 50 true 0))) := by
  refine ⟨?_, ?_, ?_⟩
  · exact (C9_validation_amended emptyRegistry 3 "999.0.0.1/24" 22 50 false 0).1 (by decide)
  · exact (C9_validation_amended emptyRegistry 3 "10.0.0.0/24" 70000 50 false 0).2.1 (by decide)
  · exact (C9_validation_amended emptyRegistry 3 "10.0.0.0/24" 7890 50 true 0).2.2
      (ScanTask.init "10.0.0.0/24" 7890 50 true 0) rfl

/-- Claim C10: every failing reference-site attempt overwrites the single
error field, every successful attempt leaves it untouched, and in the
concrete environment where the first and last attempts fail around a
success the final report is working while still carrying the error of the
last failing attempt. -/
theorem C10_error_overwrite :
    (∀ (cfg : ProxyProtocol) (site : Site) (oracle : ProxyProtocol → Site → ProbeOutcome)
        (info : ProxyInfo) (msg : String),
        oracle cfg site = ProbeOutcome.exc msg →
        (processSite cfg site oracle info).errField = some msg) ∧
    (∀ (cfg : ProxyProtocol) (site : Site) (oracle : ProxyProtocol → Site → ProbeOutcome)
        (info : ProxyInfo) (status : Nat) (e : ℚ) (g : Option GeoData),
        oracle cfg site = ProbeOutcome.response status e g →
        (processSite cfg site oracle info).errField = info.errField) ∧
    ((test_proxy_quality o10 ai0 true).is_working = true ∧
     (test_proxy_quality o10 ai0 true).errField = some "Connection error") := by
  refine ⟨processSite_errField_exc, processSite_errField_response, by decide, by decide⟩

/-- Witness for claim C10: the failing geolocation attempt sets the error
field, and the following successful beacon attempt leaves it unchanged. -/
theorem C10_error_overwrite_witness :
    (processSite ProxyProtocol.http Site.ipCheck o10 initProxyInfo).errField
      = some "Request timeout" ∧
    (processSite ProxyProtocol.http Site.google o10
        (processSite ProxyProtocol.http Site.ipCheck o10 initProxyInfo)).errField
      = (processSite ProxyProtocol.http Site.ipCheck o10 initProxyInfo).errField := by
  constructor
  · exact C10_error_overwrite.1 ProxyProtocol.http Site.ipCheck o10 initProxyInfo
      "Request timeout" rfl
  · exact C10_error_overwrite.2.1 ProxyProtocol.http Site.google o10
      (processSite ProxyProtocol.http Site.ipCheck o10 initProxyInfo) 204 300 none rfl

end PortScanner
